import Mathlib

/-!
Shallow embedding of the NLP stock screener repository
(`Nlp_stock.py`, `scraper.py`) together with proofs about its behaviour.

Conventions of the embedding:

* Python strings are `String`; `str.lower` is ASCII lowering (`pyLower`),
  which agrees with Python on the ASCII messages and keywords the screener
  compares; the Python substring test `a in b` is `strContains b a`.
* The numeric provider fields handled by the scraper are `Option ℚ`
  (a field the provider does not report is `none`); Python truthiness on
  such a value is `truthyQ` (both `None` and `0` are falsy).
* The sqlite table `stocks` is a list of rows; `INSERT OR REPLACE` keyed
  on the unique `symbol` column is `upsertRow`.  The surrogate `id` and
  the `last_updated` timestamp are filled in by sqlite itself and are not
  part of a row here.
* Calls into external services are oracle parameters: the Gemini call is
  `ai : String → Except String String` where `Except.error e` models a
  raised exception whose text is `e`; executing a SQL statement against
  the database file is `a function String → Except String (List StockRow)`
  with the same convention.
-/

/-- ASCII lowering of a string, modelling Python `str.lower` on the ASCII
text the screener compares. -/
def pyLower (s : String) : String := ⟨s.data.map Char.toLower⟩

/-- Does `needle` occur as a contiguous run inside the second list?
Models the Python substring operator `needle in haystack`. -/
def occAt (needle : List Char) : List Char → Bool
  | [] => needle.isEmpty
  | c :: rest => needle.isPrefixOf (c :: rest) || occAt needle rest

/-- Python `needle in haystack` on strings. -/
def strContains (haystack needle : String) : Bool :=
  occAt needle.data haystack.data

/-- Python `any(w in q for w in ws)`. -/
def anyIn (ws : List String) (q : String) : Bool :=
  ws.any fun w => strContains q w

/-! ### The query classifier (`NLPStockScreener.create_sql_query`)

The six SQL templates are transcribed verbatim from the Python
triple-quoted strings, including their indentation and trailing blanks. -/

def sqlValue : String :=
  "\n            SELECT * FROM stocks \n            WHERE pe_ratio < 15 AND pb_ratio < 2 AND roe > 10 \n            ORDER BY pe_ratio ASC \n            LIMIT 15\n            "

def sqlGrowth : String :=
  "\n            SELECT * FROM stocks \n            WHERE revenue_growth > 15 AND roe > 20 \n            ORDER BY revenue_growth DESC \n            LIMIT 15\n            "

def sqlDividend : String :=
  "\n            SELECT * FROM stocks \n            WHERE dividend_yield > 2 \n            ORDER BY dividend_yield DESC \n            LIMIT 15\n            "

def sqlSafe : String :=
  "\n            SELECT * FROM stocks \n            WHERE debt_to_equity < 0.5 AND current_ratio > 1.5 AND roe > 10 \n            ORDER BY debt_to_equity ASC \n            LIMIT 15\n            "

def sqlLargeCap : String :=
  "\n            SELECT * FROM stocks \n            WHERE market_cap > 50000 \n            ORDER BY market_cap DESC \n            LIMIT 15\n            "

def sqlDefault : String :=
  "\n            SELECT * FROM stocks \n            WHERE roe > 15 AND pe_ratio < 30 AND debt_to_equity < 1 \n            ORDER BY roe DESC \n            LIMIT 15\n            "

def valueKeywords : List String := ["value", "cheap", "undervalued"]

def growthKeywords : List String := ["growth", "growing", "high growth"]

def dividendKeywords : List String := ["dividend", "income", "yield"]

def safeKeywords : List String := ["safe", "stable", "low risk"]

def largeKeywords : List String := ["large cap", "big", "large"]

/-- `NLPStockScreener.create_sql_query`: lower-case the message, then walk
the keyword groups in source order and return the first matching template,
with the quality template as the default. -/
def create_sql_query (user_query : String) : String :=
  let query := pyLower user_query
  if anyIn valueKeywords query then sqlValue
  else if anyIn growthKeywords query then sqlGrowth
  else if anyIn dividendKeywords query then sqlDividend
  else if anyIn safeKeywords query then sqlSafe
  else if anyIn largeKeywords query then sqlLargeCap
  else sqlDefault

/-- The classifier as the specification states it: an ordered rule table of
(keyword group, template) pairs, evaluated first-match-wins. -/
def specRules : List (List String × String) :=
  [(valueKeywords, sqlValue), (growthKeywords, sqlGrowth),
   (dividendKeywords, sqlDividend), (safeKeywords, sqlSafe),
   (largeKeywords, sqlLargeCap)]

/-- First-match-wins evaluation of a rule table over the lower-cased
message, falling back to the default quality template. -/
def specClassify : List (List String × String) → String → String
  | [], _ => sqlDefault
  | (ws, t) :: rest, q => if anyIn ws (pyLower q) then t else specClassify rest q

/-! ### Conversation memory and prompt assembly
(`NLPStockScreener.create_ai_prompt`) -/

/-- One conversation exchange, as stored in
`NLPStockScreener.conversation_history`. -/
structure Turn where
  user : String
  assistant : String
deriving DecidableEq

/-- The fixed system instruction block `NLPStockScreener.system_prompt`. -/
def system_prompt : String :=
  "\nYou are a friendly stock market expert. You help users find good stocks to invest in.\n\nYour database contains Indian stocks with these details:\n- symbol, name, sector, industry\n- market_cap, pe_ratio, pb_ratio, roe\n- debt_to_equity, current_ratio, revenue_growth\n- net_profit_margin, dividend_yield, price, volume\n\nBe conversational, friendly, and give specific stock recommendations with reasons.\n"

/-- One database row as the screening engine sees it.  A sqlite row arrives
as a column-to-value dictionary; the prompt reads six of its columns, and
each field below holds the text Python interpolates for that value in an
f-string.  Rows are otherwise treated as opaque records. -/
structure StockRow where
  name : String
  symbol : String
  sector : String
  pe_ratio : String
  roe : String
  market_cap : String
deriving DecidableEq

/-- The two prompt lines one stored turn contributes. -/
def turnText (t : Turn) : String :=
  "User: " ++ t.user ++ "\n" ++ "You: " ++ t.assistant ++ "\n\n"

/-- Python `conversation_history[-4:]`: the last four turns, or all of them
when fewer than four are stored. -/
def lastFour (history : List Turn) : List Turn :=
  history.drop (history.length - 4)

/-- The "previous conversation" block of the prompt: present exactly when
the history is non-empty, and listing `lastFour` of it. -/
def historySection (history : List Turn) : String :=
  if history.isEmpty then ""
  else "Previous conversation:\n" ++ String.join ((lastFour history).map turnText)

/-- One numbered stock entry of the prompt, from the f-strings of
`create_ai_prompt` (the pieces of each f-string are kept as separate
appends). -/
def stockText (i : Nat) (s : StockRow) : String :=
  toString i ++ ". " ++ s.name ++ " " ++ "(" ++ s.symbol ++ ")" ++ "\n" ++
  "   " ++ "Sector: " ++ s.sector ++ "\n" ++
  "   " ++ "PE Ratio: " ++ s.pe_ratio ++ "\n" ++
  "   " ++ "ROE: " ++ s.roe ++ "%" ++ "\n" ++
  "   " ++ "Market Cap: " ++ "₹" ++ s.market_cap ++ " crores" ++ "\n\n"

/-- Python `enumerate(rows, i)`. -/
def numberFrom (i : Nat) : List StockRow → List (Nat × StockRow)
  | [] => []
  | s :: rest => (i, s) :: numberFrom (i + 1) rest

/-- The "stocks found" block of the prompt: present exactly when this
message's lookup returned rows, and listing the first eight
(`stock_data[:8]`) numbered from one. -/
def stocksSection (stock_data : List StockRow) : String :=
  if stock_data.isEmpty then ""
  else "Here are the stocks I found in the database:\n" ++
    String.join ((numberFrom 1 (stock_data.take 8)).map fun p => stockText p.1 p.2)

/-- `NLPStockScreener.create_ai_prompt`: system block, then the previous
conversation window, then the stocks found by this message's lookup, then
the current question and the closing instruction. -/
def create_ai_prompt (history : List Turn) (user_message : String)
    (stock_data : List StockRow) : String :=
  system_prompt ++ "\n\n" ++
  historySection history ++
  stocksSection stock_data ++
  "User's current question: " ++ user_message ++ "\n\n" ++
  "Please respond conversationally and recommend specific stocks with reasons."

/-! ### The screening engine
(`NLPStockScreener.search_stocks`, `get_ai_response`,
`process_user_message`) -/

/-- `NLPStockScreener.get_ai_response`: forward the model's text, and on
any raised error return the apology string embedding the error's text. -/
def get_ai_response (ai : String → Except String String) (prompt : String) : String :=
  match ai prompt with
  | .ok t => t
  | .error e => "Sorry, I encountered an error: " ++ e

/-- `NLPStockScreener.search_stocks`: classify the message into a SQL
statement, run it, and return the rows; any execution error is caught and
yields the empty result list. -/
def search_stocks (execSql : String → Except String (List StockRow))
    (user_query : String) : List StockRow :=
  match execSql (create_sql_query user_query) with
  | .ok rows => rows
  | .error _ => []

/-- The trigger-keyword test of `process_user_message`. -/
def needs_stock_data (user_message : String) : Bool :=
  anyIn ["find", "show", "recommend", "suggest", "good", "best", "stocks",
         "companies", "investment", "buy", "portfolio"] (pyLower user_message)

/-- The mutable state of one `NLPStockScreener` instance. -/
structure ScreenerState where
  conversation_history : List Turn
  current_stocks : List StockRow
deriving DecidableEq

/-- The rows this message's lookup contributes to the prompt: the lookup's
output when the message triggers one, and the initial `stock_data = []`
otherwise. -/
def lookupResult (db : String → List StockRow) (user_message : String) : List StockRow :=
  if needs_stock_data user_message then db user_message else []

/-- The prompt `process_user_message` assembles for a message: it reads the
stored conversation history and this message's lookup result, never the
stored `current_stocks`. -/
def promptFor (db : String → List StockRow) (st : ScreenerState)
    (user_message : String) : String :=
  create_ai_prompt st.conversation_history user_message (lookupResult db user_message)

/-- `NLPStockScreener.process_user_message`: run the lookup when the
message asks for one (replacing `current_stocks`), assemble the prompt,
call the model, append the exchange to the history, and return the
response. -/
def process_user_message (db : String → List StockRow)
    (ai : String → Except String String) (st : ScreenerState)
    (user_message : String) : String × ScreenerState :=
  let response := get_ai_response ai (promptFor db st user_message)
  (response,
   { conversation_history := st.conversation_history ++ [⟨user_message, response⟩]
     current_stocks :=
       if needs_stock_data user_message then lookupResult db user_message
       else st.current_stocks })

/-! ### The fundamentals loader (`scraper.py`, class `StockDataScraper`) -/

/-- The provider's metadata bundle for one symbol (`yf.Ticker(symbol).info`),
restricted to the keys the scraper reads.  A key the provider does not
report is `none`. -/
structure Info where
  longName : Option String
  sector : Option String
  industry : Option String
  marketCap : Option ℚ
  forwardPE : Option ℚ
  trailingPE : Option ℚ
  priceToBook : Option ℚ
  returnOnEquity : Option ℚ
  debtToEquity : Option ℚ
  currentRatio : Option ℚ
  revenueGrowth : Option ℚ
  profitMargins : Option ℚ
  dividendYield : Option ℚ
  currentPrice : Option ℚ
  regularMarketPrice : Option ℚ
  volume : Option ℤ

/-- Python truthiness of an optional number: `None` and `0` are falsy. -/
def truthyQ (v : Option ℚ) : Bool :=
  match v with
  | none => false
  | some x => decide (x ≠ 0)

/-- Python `a or b` on two optional numbers, as used for the forward/
trailing P/E and current/regular-market price fallbacks. -/
def pyOrQ (a b : Option ℚ) : Option ℚ :=
  if truthyQ a then a else b

/-- The guarded percentage conversion `if d[k]: d[k] *= 100`. -/
def scale100 (v : Option ℚ) : Option ℚ :=
  if truthyQ v then v.map (· * 100) else v

/-- One row of the `stocks` table, as assembled by
`fetch_stock_data_yfinance` and written by `save_to_database`.  The
surrogate `id` and the defaulted `last_updated` column are sqlite's own. -/
structure StockData where
  symbol : String
  name : String
  sector : String
  industry : String
  market_cap : Option ℚ
  pe_ratio : Option ℚ
  pb_ratio : Option ℚ
  roe : Option ℚ
  debt_to_equity : Option ℚ
  current_ratio : Option ℚ
  revenue_growth : Option ℚ
  net_profit_margin : Option ℚ
  dividend_yield : Option ℚ
  price : Option ℚ
  volume : Option ℤ
deriving DecidableEq

/-- `StockDataScraper.fetch_stock_data_yfinance`, success path: extract the
fields from the provider bundle, then apply the guarded percentage
conversion to roe, revenue growth, net margin and dividend yield.  (The
surrounding try/except, which turns any raised error into "no data", is
modelled at the call site in `runRetries`.) -/
def fetch_stock_data_yfinance (symbol : String) (info : Info) : StockData :=
  { symbol := symbol
    name := info.longName.getD ""
    sector := info.sector.getD ""
    industry := info.industry.getD ""
    market_cap := info.marketCap
    pe_ratio := pyOrQ info.forwardPE info.trailingPE
    pb_ratio := info.priceToBook
    roe := scale100 info.returnOnEquity
    debt_to_equity := info.debtToEquity
    current_ratio := info.currentRatio
    revenue_growth := scale100 info.revenueGrowth
    net_profit_margin := scale100 info.profitMargins
    dividend_yield := scale100 info.dividendYield
    price := pyOrQ info.currentPrice info.regularMarketPrice
    volume := info.volume }

/-- `INSERT OR REPLACE INTO stocks ...` with `symbol` UNIQUE: any existing
row with the same symbol is deleted and the fresh row inserted (it
receives a new surrogate id, hence sits last in id order). -/
def upsertRow (tbl : List StockData) (r : StockData) : List StockData :=
  (tbl.filter fun x => x.symbol != r.symbol) ++ [r]

/-- `StockDataScraper.save_to_database`, success path: a missing bundle is
rejected (`if not stock_data: return False`), a present one is upserted. -/
def save_to_database (tbl : List StockData) (sd : Option StockData) :
    List StockData × Bool :=
  match sd with
  | none => (tbl, false)
  | some r => (upsertRow tbl r, true)

/-! The retry loop of `StockDataScraper.scrape_all_stocks`.  One attempt at
one symbol ends in one of three ways. -/

/-- How one fetch-then-upsert attempt ends.  `ok`: the fetch returned a
bundle and the save returned True.  `noData`: the fetch returned None
(its internal except caught the error) or the save returned False — the
loop's own try/except sees no exception.  `exn`: an exception propagated
into the loop's try/except (only the database layer can raise past its
own handlers, e.g. when opening the connection). -/
inductive AttemptResult where
  | ok
  | noData
  | exn
deriving DecidableEq

/-- What the retry loop for one symbol did: the increments it adds to the
run's success/failure counters, the attempts it consumed, and how many
`time.sleep(delay * 2)` backoff waits it performed between attempts. -/
structure RetryStats where
  succ : Nat
  fail : Nat
  attempts : Nat
  retrySleeps : Nat
deriving DecidableEq

/-- The `for attempt in range(max_retries)` loop for one symbol, driven by
the sequence of attempt outcomes.  A success breaks out; a caught failure
retries immediately, counting one failure only on the last attempt; an
exception sleeps `delay * 2` before the next attempt, or counts one
failure on the last. -/
def runRetries : List AttemptResult → RetryStats
  | [] => ⟨0, 0, 0, 0⟩
  | r :: rest =>
    match r, rest with
    | .ok, _ => ⟨1, 0, 1, 0⟩
    | .noData, [] => ⟨0, 1, 1, 0⟩
    | .exn, [] => ⟨0, 1, 1, 0⟩
    | .noData, s :: t =>
      let st := runRetries (s :: t)
      ⟨st.succ, st.fail, st.attempts + 1, st.retrySleeps⟩
    | .exn, s :: t =>
      let st := runRetries (s :: t)
      ⟨st.succ, st.fail, st.attempts + 1, st.retrySleeps + 1⟩

/-- `StockDataScraper.scrape_all_stocks`, counter accounting: every symbol
is processed in order (batching only inserts waits), each contributing its
retry loop's increments to the success and failure totals. -/
def scrape_all_stocks (schedule : List (List AttemptResult)) : Nat × Nat :=
  schedule.foldl
    (fun acc o => (acc.1 + (runRetries o).succ, acc.2 + (runRetries o).fail))
    (0, 0)

/-! ### Helper lemmas about substring containment -/

theorem isPfxOf_append_self (n t : List Char) : n.isPrefixOf (n ++ t) = true := by
  induction n with
  | nil => simp [List.isPrefixOf]
  | cons a as ih => simp [List.isPrefixOf, ih]

theorem occAt_nil (l : List Char) : occAt [] l = true := by
  induction l with
  | nil => rfl
  | cons c rest ih => simp [occAt, ih, List.isPrefixOf]

theorem occAt_start (n t : List Char) : occAt n (n ++ t) = true := by
  cases n with
  | nil => exact occAt_nil t
  | cons a as => simp [occAt, isPfxOf_append_self]

theorem occAt_append_right (n pre rest : List Char) (h : occAt n rest = true) :
    occAt n (pre ++ rest) = true := by
  induction pre with
  | nil => exact h
  | cons p ps ih => simp [occAt, ih]

/-- A string contains any middle part of an append decomposition. -/
theorem strContains_mid (pre n post : String) :
    strContains (pre ++ (n ++ post)) n = true := by
  unfold strContains
  rw [String.data_append, String.data_append]
  exact occAt_append_right _ _ _ (occAt_start _ _)

/-- A string contains its final part. -/
theorem strContains_end (pre n : String) : strContains (pre ++ n) n = true := by
  unfold strContains
  rw [String.data_append]
  refine occAt_append_right _ _ _ ?_
  have h := occAt_start n.data []
  rwa [List.append_nil] at h

theorem apology_ne_empty (e : String) :
    ("Sorry, I encountered an error: " ++ e) ≠ "" := by
  intro h
  have h2 := congrArg String.length h
  rw [String.length_append] at h2
  have h3 : "Sorry, I encountered an error: ".length = 31 := by decide
  have h4 : "".length = 0 := by decide
  rw [h3, h4] at h2
  omega

/-! ### The claims -/

/-- C1: `create_sql_query` lower-cases the message, evaluates the six
keyword groups in the fixed priority order value > growth > dividend >
safety > large-cap > default by case-insensitive substring containment,
and returns the template of the first group with a matching keyword, the
default quality template when none matches; it agrees with the first-match
rule-table reading of the specification, a message containing the value
keyword "cheap" always yields the value template, and a message matching
no group yields the default template. -/
theorem claim_C1 (m : String) :
    create_sql_query m = specClassify specRules m ∧
    (strContains (pyLower m) "cheap" = true → create_sql_query m = sqlValue) ∧
    (anyIn valueKeywords (pyLower m) = false →
     anyIn growthKeywords (pyLower m) = false →
     anyIn dividendKeywords (pyLower m) = false →
     anyIn safeKeywords (pyLower m) = false →
     anyIn largeKeywords (pyLower m) = false →
     create_sql_query m = sqlDefault) := by
  refine ⟨?_, ?_, ?_⟩
  · simp only [create_sql_query, specClassify, specRules]
  · intro h
    have hv : anyIn valueKeywords (pyLower m) = true := by
      simp [anyIn, valueKeywords, h]
    simp only [create_sql_query, hv, if_true]
  · intro h1 h2 h3 h4 h5
    simp [create_sql_query, h1, h2, h3, h4, h5]

/-- Witness for C1 at concrete messages: "find cheap undervalued stocks"
selects the value template, "tell me a joke" the default one. -/
theorem claim_C1_witness :
    strContains (pyLower "find cheap undervalued stocks") "cheap" = true ∧
    create_sql_query "find cheap undervalued stocks" = sqlValue ∧
    anyIn valueKeywords (pyLower "tell me a joke") = false ∧
    create_sql_query "tell me a joke" = sqlDefault :=
  ⟨by decide, (claim_C1 "find cheap undervalued stocks").2.1 (by decide),
   by decide,
   (claim_C1 "tell me a joke").2.2 (by decide) (by decide) (by decide)
     (by decide) (by decide)⟩

/-- C2: `process_user_message` performs a database lookup exactly when the
lower-cased message contains one of the eleven trigger keywords, replacing
`current_stocks` with the lookup output (possibly empty); otherwise
`current_stocks` is exactly what it was before the call. -/
theorem claim_C2 (db : String → List StockRow)
    (ai : String → Except String String) (st : ScreenerState) (m : String) :
    (process_user_message db ai st m).2.current_stocks
      = (if needs_stock_data m then db m else st.current_stocks) := by
  cases h : needs_stock_data m <;>
    simp [process_user_message, lookupResult, h]

/-- C3: when the model call raises, `get_ai_response` returns the apology
string embedding the error text, so `process_user_message` still returns a
non-empty string containing the error text and still appends it to the
conversation history as the assistant's turn. -/
theorem claim_C3 (db : String → List StockRow)
    (ai : String → Except String String) (st : ScreenerState) (m e : String)
    (h : ai (promptFor db st m) = .error e) :
    (process_user_message db ai st m).1 = "Sorry, I encountered an error: " ++ e ∧
    (process_user_message db ai st m).1 ≠ "" ∧
    strContains (process_user_message db ai st m).1 e = true ∧
    (process_user_message db ai st m).2.conversation_history
      = st.conversation_history ++ [⟨m, "Sorry, I encountered an error: " ++ e⟩] := by
  have hr : (process_user_message db ai st m).1
      = "Sorry, I encountered an error: " ++ e := by
    simp [process_user_message, get_ai_response, h]
  refine ⟨hr, ?_, ?_, ?_⟩
  · rw [hr]; exact apology_ne_empty e
  · rw [hr]; exact strContains_end _ _
  · simp [process_user_message, get_ai_response, h]

/-- Witness for C3: a model that always raises with text "quota exceeded",
driven on the message "hello" from a fresh screener state. -/
theorem claim_C3_witness :
    (process_user_message (fun _ => []) (fun _ => Except.error "quota exceeded")
        ⟨[], []⟩ "hello").1 = "Sorry, I encountered an error: " ++ "quota exceeded" ∧
    (process_user_message (fun _ => []) (fun _ => Except.error "quota exceeded")
        ⟨[], []⟩ "hello").1 ≠ "" ∧
    strContains (process_user_message (fun _ => [])
        (fun _ => Except.error "quota exceeded") ⟨[], []⟩ "hello").1
        "quota exceeded" = true ∧
    (process_user_message (fun _ => []) (fun _ => Except.error "quota exceeded")
        ⟨[], []⟩ "hello").2.conversation_history
      = [] ++ [⟨"hello", "Sorry, I encountered an error: " ++ "quota exceeded"⟩] :=
  claim_C3 (fun _ => []) (fun _ => Except.error "quota exceeded") ⟨[], []⟩
    "hello" "quota exceeded" rfl

/-- C4: each of the four percentage fields is multiplied by 100 exactly
when the provider value is present and truthy: all four stored fields
equal `scale100` of the provider field, `scale100` rescales a present
non-zero value by 100 and leaves an absent value or a present zero
unchanged, and a provider return-on-equity of 0.18 is stored as 18. -/
theorem claim_C4 (sym : String) (info : Info) (x : ℚ) :
    (fetch_stock_data_yfinance sym info).roe = scale100 info.returnOnEquity ∧
    (fetch_stock_data_yfinance sym info).revenue_growth = scale100 info.revenueGrowth ∧
    (fetch_stock_data_yfinance sym info).net_profit_margin = scale100 info.profitMargins ∧
    (fetch_stock_data_yfinance sym info).dividend_yield = scale100 info.dividendYield ∧
    scale100 (some x) = (if x = 0 then some x else some (x * 100)) ∧
    scale100 none = none ∧
    scale100 (some (18 / 100 : ℚ)) = some 18 := by
  refine ⟨rfl, rfl, rfl, rfl, ?_, rfl, ?_⟩
  · by_cases hx : x = 0
    · simp [scale100, truthyQ, hx]
    · simp [scale100, truthyQ, hx]
  · have hx : (18 / 100 : ℚ) ≠ 0 := by norm_num
    simp only [scale100, truthyQ, hx, decide_True, if_true, Option.map_some']
    norm_num

/-- C10: the forward/trailing P/E preference and the current/regular-market
price preference are Python truthiness, so a present forward P/E of
exactly 0, or a present current price of exactly 0, falls back to the
trailing P/E or the regular market price. -/
theorem claim_C10 (sym : String) (info : Info) :
    (fetch_stock_data_yfinance sym info).pe_ratio
      = pyOrQ info.forwardPE info.trailingPE ∧
    (fetch_stock_data_yfinance sym info).price
      = pyOrQ info.currentPrice info.regularMarketPrice ∧
    (info.forwardPE = some 0 →
      (fetch_stock_data_yfinance sym info).pe_ratio = info.trailingPE) ∧
    (info.currentPrice = some 0 →
      (fetch_stock_data_yfinance sym info).price = info.regularMarketPrice) := by
  refine ⟨rfl, rfl, ?_, ?_⟩
  · intro h
    simp [fetch_stock_data_yfinance, pyOrQ, truthyQ, h]
  · intro h
    simp [fetch_stock_data_yfinance, pyOrQ, truthyQ, h]

/-- A provider bundle whose forward P/E and current price are exactly 0,
with a trailing P/E of 12 and a regular market price of 99. -/
def infoZeroPE : Info :=
  { longName := none, sector := none, industry := none, marketCap := none
    forwardPE := some 0, trailingPE := some 12, priceToBook := none
    returnOnEquity := none, debtToEquity := none, currentRatio := none
    revenueGrowth := none, profitMargins := none, dividendYield := none
    currentPrice := some 0, regularMarketPrice := some 99, volume := none }

/-- Witness for C10: with `infoZeroPE` the stored P/E is the trailing one
and the stored price the regular market one. -/
theorem claim_C10_witness :
    (fetch_stock_data_yfinance "TCS.NS" infoZeroPE).pe_ratio = infoZeroPE.trailingPE ∧
    (fetch_stock_data_yfinance "TCS.NS" infoZeroPE).price = infoZeroPE.regularMarketPrice :=
  ⟨(claim_C10 "TCS.NS" infoZeroPE).2.2.1 rfl,
   (claim_C10 "TCS.NS" infoZeroPE).2.2.2 rfl⟩

/-- Accounting helper: folding the scrape counters from any starting pair
shifts the totals of the fold from `(0, 0)`. -/
theorem scrape_foldl_shift (l : List (List AttemptResult)) (a b : Nat) :
    List.foldl
      (fun acc o => (acc.1 + (runRetries o).succ, acc.2 + (runRetries o).fail))
      (a, b) l
    = (a + (scrape_all_stocks l).1, b + (scrape_all_stocks l).2) := by
  induction l generalizing a b with
  | nil => simp [scrape_all_stocks]
  | cons o rest ih =>
    simp only [scrape_all_stocks, List.foldl_cons]
    rw [ih, ih]
    simp [Prod.ext_iff]
    omega

/-- C5, amended: each symbol gets at most 3 fetch-then-upsert attempts and
exactly one failure increment when none succeeds, and the run proceeds to
the next symbol; but the `delay * 2` wait occurs only between attempts
that ended in an exception reaching the scrape loop — a fetch failure is
caught inside the fetcher, returns no data, and is retried with no
inter-attempt wait, so three caught fetch failures perform zero backoff
waits. -/
theorem claim_C5 (o : List AttemptResult) (schedule : List (List AttemptResult)) :
    (runRetries o).attempts ≤ o.length ∧
    runRetries [.noData, .noData, .noData] = ⟨0, 1, 3, 0⟩ ∧
    runRetries [.exn, .exn, .exn] = ⟨0, 1, 3, 2⟩ ∧
    scrape_all_stocks (o :: schedule)
      = ((runRetries o).succ + (scrape_all_stocks schedule).1,
         (runRetries o).fail + (scrape_all_stocks schedule).2) := by
  refine ⟨?_, by decide, by decide, ?_⟩
  · induction o with
    | nil => simp [runRetries]
    | cons r rest ih =>
      cases r <;> cases rest <;> simp_all [runRetries]
  · simp only [scrape_all_stocks, List.foldl_cons]
    rw [scrape_foldl_shift]
    simp [scrape_all_stocks]

/-- Counterexample to C5 as stated: three consecutive caught fetch
failures for one symbol do make exactly 3 attempts and count one failure,
but perform zero `delay * 2` waits between attempts, not the wait after
each failed attempt the claim describes. -/
theorem claim_C5_counterexample :
    (runRetries [.noData, .noData, .noData]).attempts = 3 ∧
    (runRetries [.noData, .noData, .noData]).fail = 1 ∧
    ¬((runRetries [.noData, .noData, .noData]).retrySleeps = 2) := by
  decide

/-- C6: the "previous conversation" section renders exactly the last
`min n 4` stored turns, in original chronological order (they are a
suffix of the history); with 6 stored turns exactly the last 4 are
rendered, never all 6; and the section is omitted entirely for an empty
history. -/
theorem claim_C6 (h : List Turn) :
    (lastFour h).length = min h.length 4 ∧
    h.take (h.length - 4) ++ lastFour h = h ∧
    (h.length = 6 → lastFour h = h.drop 2 ∧ lastFour h ≠ h) ∧
    historySection [] = "" ∧
    (h ≠ [] → historySection h
      = "Previous conversation:\n" ++ String.join ((lastFour h).map turnText)) := by
  refine ⟨?_, ?_, ?_, rfl, ?_⟩
  · rw [lastFour, List.length_drop]
    omega
  · exact List.take_append_drop _ _
  · intro h6
    constructor
    · rw [lastFour, h6]
    · intro heq
      have hl := congrArg List.length heq
      rw [lastFour, List.length_drop, h6] at hl
      omega
  · intro hne
    rw [historySection, if_neg]
    simpa using hne

/-- Witness for C6 at a concrete 6-turn history. -/
theorem claim_C6_witness :
    lastFour [⟨"u1", "a1"⟩, ⟨"u2", "a2"⟩, ⟨"u3", "a3"⟩, ⟨"u4", "a4"⟩,
              ⟨"u5", "a5"⟩, ⟨"u6", "a6"⟩]
      = List.drop 2 [⟨"u1", "a1"⟩, ⟨"u2", "a2"⟩, ⟨"u3", "a3"⟩, ⟨"u4", "a4"⟩,
                     ⟨"u5", "a5"⟩, ⟨"u6", "a6"⟩] ∧
    lastFour [⟨"u1", "a1"⟩, ⟨"u2", "a2"⟩, ⟨"u3", "a3"⟩, ⟨"u4", "a4"⟩,
              ⟨"u5", "a5"⟩, ⟨"u6", "a6"⟩]
      ≠ [⟨"u1", "a1"⟩, ⟨"u2", "a2"⟩, ⟨"u3", "a3"⟩, ⟨"u4", "a4"⟩,
         ⟨"u5", "a5"⟩, ⟨"u6", "a6"⟩] ∧
    historySection [⟨"u1", "a1"⟩, ⟨"u2", "a2"⟩, ⟨"u3", "a3"⟩, ⟨"u4", "a4"⟩,
                    ⟨"u5", "a5"⟩, ⟨"u6", "a6"⟩]
      = "Previous conversation:\n" ++
        String.join ((lastFour [⟨"u1", "a1"⟩, ⟨"u2", "a2"⟩, ⟨"u3", "a3"⟩,
          ⟨"u4", "a4"⟩, ⟨"u5", "a5"⟩, ⟨"u6", "a6"⟩]).map turnText) := by
  have hc := claim_C6 [⟨"u1", "a1"⟩, ⟨"u2", "a2"⟩, ⟨"u3", "a3"⟩, ⟨"u4", "a4"⟩,
    ⟨"u5", "a5"⟩, ⟨"u6", "a6"⟩]
  exact ⟨(hc.2.2.1 rfl).1, (hc.2.2.1 rfl).2, hc.2.2.2.2 (by decide)⟩

/-- C7: the "stocks found" section is included exactly when this message's
lookup returned rows; it lists the first `min length 8` rows (a prefix of
the result; for 15 rows exactly the first 8, never all 15); each entry
carries the row's name, symbol in parentheses, sector, P/E, ROE with a
percent suffix and market cap with the currency-unit decoration; and the
prompt is built from this message's lookup result, never from the stored
`current_stocks` memory. -/
theorem claim_C7 (rows : List StockRow) (i : Nat) (s : StockRow)
    (db : String → List StockRow) (hist : List Turn)
    (cs1 cs2 : List StockRow) (m : String) :
    stocksSection [] = "" ∧
    (rows ≠ [] → stocksSection rows
      = "Here are the stocks I found in the database:\n" ++
        String.join ((numberFrom 1 (rows.take 8)).map fun p => stockText p.1 p.2)) ∧
    (rows.take 8).length = min rows.length 8 ∧
    rows.take 8 ++ rows.drop 8 = rows ∧
    (rows.length = 15 → rows.take 8 ≠ rows) ∧
    strContains (stockText i s) s.name = true ∧
    strContains (stockText i s) ("(" ++ s.symbol ++ ")") = true ∧
    strContains (stockText i s) ("Sector: " ++ s.sector) = true ∧
    strContains (stockText i s) ("PE Ratio: " ++ s.pe_ratio) = true ∧
    strContains (stockText i s) ("ROE: " ++ s.roe ++ "%") = true ∧
    strContains (stockText i s) ("₹" ++ s.market_cap ++ " crores") = true ∧
    promptFor db ⟨hist, cs1⟩ m = promptFor db ⟨hist, cs2⟩ m := by
  refine ⟨rfl, ?_, ?_, ?_, ?_, ?_, ?_, ?_, ?_, ?_, ?_, rfl⟩
  · intro hne
    rw [stocksSection, if_neg]
    simpa using hne
  · rw [List.length_take, Nat.min_comm]
  · exact List.take_append_drop _ _
  · intro h15 heq
    have hl := congrArg List.length heq
    rw [List.length_take, h15] at hl
    omega
  · have hx : stockText i s
        = (toString i ++ ". ") ++
          (s.name ++
           (" " ++ "(" ++ s.symbol ++ ")" ++ "\n" ++ "   " ++ "Sector: " ++
            s.sector ++ "\n" ++ "   " ++ "PE Ratio: " ++ s.pe_ratio ++ "\n" ++
            "   " ++ "ROE: " ++ s.roe ++ "%" ++ "\n" ++ "   " ++
            "Market Cap: " ++ "₹" ++ s.market_cap ++ " crores" ++ "\n\n")) := by
      simp only [stockText, String.append_assoc]
    rw [hx]
    exact strContains_mid _ _ _
  · have hx : stockText i s
        = (toString i ++ ". " ++ s.name ++ " ") ++
          (("(" ++ s.symbol ++ ")") ++
           ("\n" ++ "   " ++ "Sector: " ++ s.sector ++ "\n" ++ "   " ++
            "PE Ratio: " ++ s.pe_ratio ++ "\n" ++ "   " ++ "ROE: " ++ s.roe ++
            "%" ++ "\n" ++ "   " ++ "Market Cap: " ++ "₹" ++ s.market_cap ++
            " crores" ++ "\n\n")) := by
      simp only [stockText, String.append_assoc]
    rw [hx]
    exact strContains_mid _ _ _
  · have hx : stockText i s
        = (toString i ++ ". " ++ s.name ++ " " ++ "(" ++ s.symbol ++ ")" ++
           "\n" ++ "   ") ++
          (("Sector: " ++ s.sector) ++
           ("\n" ++ "   " ++ "PE Ratio: " ++ s.pe_ratio ++ "\n" ++ "   " ++
            "ROE: " ++ s.roe ++ "%" ++ "\n" ++ "   " ++ "Market Cap: " ++
            "₹" ++ s.market_cap ++ " crores" ++ "\n\n")) := by
      simp only [stockText, String.append_assoc]
    rw [hx]
    exact strContains_mid _ _ _
  · have hx : stockText i s
        = (toString i ++ ". " ++ s.name ++ " " ++ "(" ++ s.symbol ++ ")" ++
           "\n" ++ "   " ++ "Sector: " ++ s.sector ++ "\n" ++ "   ") ++
          (("PE Ratio: " ++ s.pe_ratio) ++
           ("\n" ++ "   " ++ "ROE: " ++ s.roe ++ "%" ++ "\n" ++ "   " ++
            "Market Cap: " ++ "₹" ++ s.market_cap ++ " crores" ++ "\n\n")) := by
      simp only [stockText, String.append_assoc]
    rw [hx]
    exact strContains_mid _ _ _
  · have hx : stockText i s
        = (toString i ++ ". " ++ s.name ++ " " ++ "(" ++ s.symbol ++ ")" ++
           "\n" ++ "   " ++ "Sector: " ++ s.sector ++ "\n" ++ "   " ++
           "PE Ratio: " ++ s.pe_ratio ++ "\n" ++ "   ") ++
          (("ROE: " ++ s.roe ++ "%") ++
           ("\n" ++ "   " ++ "Market Cap: " ++ "₹" ++ s.market_cap ++
            " crores" ++ "\n\n")) := by
      simp only [stockText, String.append_assoc]
    rw [hx]
    exact strContains_mid _ _ _
  · have hx : stockText i s
        = (toString i ++ ". " ++ s.name ++ " " ++ "(" ++ s.symbol ++ ")" ++
           "\n" ++ "   " ++ "Sector: " ++ s.sector ++ "\n" ++ "   " ++
           "PE Ratio: " ++ s.pe_ratio ++ "\n" ++ "   " ++ "ROE: " ++ s.roe ++
           "%" ++ "\n" ++ "   " ++ "Market Cap: ") ++
          (("₹" ++ s.market_cap ++ " crores") ++ "\n\n") := by
      simp only [stockText, String.append_assoc]
    rw [hx]
    exact strContains_mid _ _ _

/-- C8: upserting a second record for the same unique symbol leaves exactly
one row for that symbol, carrying the second record's values entirely. -/
theorem claim_C8 (tbl : List StockData) (r1 r2 : StockData) (s : String)
    (h1 : r1.symbol = s) (h2 : r2.symbol = s) :
    (upsertRow (upsertRow tbl r1) r2).filter (fun x => x.symbol == s) = [r2] := by
  subst h2
  simp [upsertRow, List.filter_append, List.filter_filter, h1]

/-- A stale row and its replacement for the same symbol, for the C8
witness. -/
def staleRow : StockData :=
  { symbol := "TCS.NS", name := "Tata Consultancy", sector := "", industry := ""
    market_cap := none, pe_ratio := some 20, pb_ratio := none, roe := none
    debt_to_equity := none, current_ratio := none, revenue_growth := none
    net_profit_margin := none, dividend_yield := none, price := none
    volume := none }

/-- The second save for the same symbol, with different field values. -/
def freshRow : StockData :=
  { symbol := "TCS.NS", name := "Tata Consultancy Services", sector := "Technology"
    industry := "IT Services", market_cap := some 1200000, pe_ratio := some 25
    pb_ratio := some 12, roe := some 45, debt_to_equity := some (1 / 10)
    current_ratio := some 2, revenue_growth := some 6, net_profit_margin := some 19
    dividend_yield := some 3, price := some 3500, volume := some 2000000 }

/-- Witness for C8: saving `staleRow` then `freshRow` into an empty table
leaves exactly the fresh row for the symbol. -/
theorem claim_C8_witness :
    (upsertRow (upsertRow [] staleRow) freshRow).filter
      (fun x => x.symbol == "TCS.NS") = [freshRow] :=
  claim_C8 [] staleRow freshRow "TCS.NS" rfl rfl

/-- C9: an error raised while executing the classified query is caught
inside `search_stocks`, which returns the empty result list, and the
engine then proceeds with an empty current stock result set. -/
theorem claim_C9 (execSql : String → Except String (List StockRow))
    (ai : String → Except String String) (st : ScreenerState) (q e : String)
    (h : execSql (create_sql_query q) = .error e) :
    search_stocks execSql q = [] ∧
    (needs_stock_data q = true →
      (process_user_message (search_stocks execSql) ai st q).2.current_stocks
        = []) := by
  have hs : search_stocks execSql q = [] := by
    simp [search_stocks, h]
  refine ⟨hs, ?_⟩
  intro hneeds
  simp [process_user_message, lookupResult, hneeds, hs]

/-- Witness for C9: a store whose every read raises "database is locked",
queried through the lookup-triggering message "show me good stocks". -/
theorem claim_C9_witness :
    search_stocks (fun _ => Except.error "database is locked")
      "show me good stocks" = [] ∧
    (process_user_message
        (search_stocks (fun _ => Except.error "database is locked"))
        (fun _ => Except.ok "hi") ⟨[], []⟩
        "show me good stocks").2.current_stocks = [] := by
  have hc := claim_C9 (fun _ => Except.error "database is locked")
    (fun _ => Except.ok "hi") ⟨[], []⟩ "show me good stocks"
    "database is locked" rfl
  exact ⟨hc.1, hc.2 (by decide)⟩

/-- A sample row for the C7 witness. -/
def sampleRow : StockRow :=
  { name := "Tata Consultancy Services", symbol := "TCS.NS"
    sector := "Technology", pe_ratio := "25", roe := "45"
    market_cap := "1200000" }

/-- Witness for C7: with a 15-row lookup result, the section lists exactly
the first 8 rows, never all 15. -/
theorem claim_C7_witness :
    (List.replicate 15 sampleRow).take 8 ≠ List.replicate 15 sampleRow ∧
    stocksSection (List.replicate 15 sampleRow)
      = "Here are the stocks I found in the database:\n" ++
        String.join ((numberFrom 1 ((List.replicate 15 sampleRow).take 8)).map
          fun p => stockText p.1 p.2) := by
  have hc := claim_C7 (List.replicate 15 sampleRow) 1 sampleRow
    (fun _ => []) [] [] [] "m"
  exact ⟨hc.2.2.2.2.1 (by decide), hc.2.1 (by decide)⟩
